import Mathlib

/-!
Verification development for the recovery-target client module
(cvpysdk/recovery_targets.py).

The Python module is shallowly embedded here:

* JSON documents (and Python values decoded from JSON) are modelled by the
  inductive type `JVal`; Python `None` is `JVal.null`.
* Python dictionary/list primitives (`d.get(k, default)`, `d[k]`, `xs[i]`,
  `k in d`, truthiness, `str.lower()`, `str(x)`) are modelled by total
  functions into `Except PrimErr _`, where `PrimErr` enumerates the runtime
  errors those primitives can raise (TypeError, KeyError, IndexError,
  AttributeError).
* The SDK-level exceptions raised explicitly by the module
  (SDKException with the various code pairs) are the remaining constructors
  of `PyErr`.
* The HTTP transport is a pair `(flag, response)` exactly as returned by
  `make_request`; a `Commcell` record carries the canned responses of the two
  endpoints plus the response-text post-processing function
  `_update_response_` supplied by the surrounding library.
* Methods that mutate `self` become functions from the old state to
  `Except PyErr newState`.
-/

/-- A JSON value / Python value decoded from JSON. `null` doubles as Python
`None` (they are the same object in the source). -/
inductive JVal where
  | null
  | bool (b : Bool)
  | num (n : Int)
  | str (s : String)
  | arr (xs : List JVal)
  | obj (fields : List (String × JVal))

/-- Runtime errors of the Python data primitives used by the module. -/
inductive PrimErr where
  | typeError
  | indexError
  | keyError (k : String)
  | attributeError
deriving DecidableEq

/-- Errors the module can raise: primitive runtime errors plus the
SDKException variants raised explicitly in recovery_targets.py.
`sdkResponseFailure` is SDKException('Response', '101', text) and
`sdkResponseEmpty` is SDKException('Response', '102') - together the spec's
ResponseError. `sdkTargetNotString` is SDKException('Target', '101') (the
spec's InvalidInputError) and `sdkTargetNotFound` is
SDKException('RecoveryTarget', '102', msg) (the spec's NotFoundError). -/
inductive PyErr where
  | prim (p : PrimErr)
  | sdkResponseFailure (text : String)
  | sdkResponseEmpty
  | sdkTargetNotString
  | sdkTargetNotFound (msg : String)
deriving DecidableEq

/-- Python truthiness of a JSON/Python value. -/
def JVal.truthy : JVal → Bool
  | .null => false
  | .bool b => b
  | .num n => decide (n ≠ 0)
  | .str s => decide (s ≠ "")
  | .arr xs => !xs.isEmpty
  | .obj fs => !fs.isEmpty

/-- First binding of key `k` in an association list (Python dict keys are
unique, so first match models dict lookup). -/
def jfindList (fs : List (String × JVal)) (k : String) : Option JVal :=
  (fs.find? fun p => decide (p.1 = k)).map (·.2)

/-- Python `v == "s"` for a string literal on the right: true exactly when
`v` is that string. -/
def jeqStr (v : JVal) (s : String) : Bool :=
  match v with
  | .str t => decide (t = s)
  | _ => false

/-- Whether an object value has key `k` (false on non-objects). -/
def jhasKey (v : JVal) (k : String) : Bool :=
  match v with
  | .obj fs => fs.any fun p => decide (p.1 = k)
  | _ => false

/-- Python `v.get(k, dflt)`: only dictionaries have a `get` method, every
other value raises AttributeError. -/
def jgetD (v : JVal) (k : String) (dflt : JVal) : Except PrimErr JVal :=
  match v with
  | .obj fs => .ok ((jfindList fs k).getD dflt)
  | _ => .error .attributeError

/-- Python `v.get(k)` (default `None`). -/
def jget (v : JVal) (k : String) : Except PrimErr JVal :=
  jgetD v k .null

/-- Python `v[k]` with a string key. On dictionaries a missing key raises
KeyError; every other value raises TypeError. -/
def jidxS (v : JVal) (k : String) : Except PrimErr JVal :=
  match v with
  | .obj fs =>
    match jfindList fs k with
    | some w => .ok w
    | none => .error (.keyError k)
  | _ => .error .typeError

/-- Python `v[i]` with a non-negative integer index. -/
def jidxN (v : JVal) (i : Nat) : Except PrimErr JVal :=
  match v with
  | .arr xs =>
    match xs.get? i with
    | some w => .ok w
    | none => .error .indexError
  | .str s =>
    match s.data.get? i with
    | some c => .ok (.str c.toString)
    | none => .error .indexError
  | .obj _ => .error (.keyError (toString i))
  | _ => .error .typeError

/-- Python iteration over a value (lists yield elements, dicts yield keys,
strings yield one-character strings; other values raise TypeError). -/
def jelems (v : JVal) : Except PrimErr (List JVal) :=
  match v with
  | .arr xs => .ok xs
  | .obj fs => .ok (fs.map fun p => .str p.1)
  | .str s => .ok (s.data.map fun c => .str c.toString)
  | _ => .error .typeError

/-- Naive substring test, used only to model Python `k in s` on strings. -/
def strContains (s sub : String) : Bool :=
  if sub = "" then true else decide ((s.splitOn sub).length ≠ 1)

/-- Python `k in v` for a string `k`: key membership on dicts, element
membership on lists, substring on strings, TypeError otherwise. -/
def jmemE (v : JVal) (k : String) : Except PrimErr Bool :=
  match v with
  | .obj fs => .ok (fs.any fun p => decide (p.1 = k))
  | .arr xs => .ok (xs.any fun x => jeqStr x k)
  | .str s => .ok (strContains s k)
  | _ => .error .typeError

/-- ASCII lower-casing of one character, as Python str.lower does for the
basic latin range (the module only handles such names). -/
def lowerChar (c : Char) : Char :=
  if 65 ≤ c.toNat ∧ c.toNat ≤ 90 then Char.ofNat (c.toNat + 32) else c

/-- Python `s.lower()` (ASCII model). -/
def pyLowerStr (s : String) : String := ⟨s.data.map lowerChar⟩

/-- Python `v.lower()`: only strings have the method. -/
def pyLower (v : JVal) : Except PrimErr String :=
  match v with
  | .str s => .ok (pyLowerStr s)
  | _ => .error .attributeError

mutual
/-- Python `repr` of a JSON-decoded value (the form used inside containers by
`str`). -/
def pyRepr : JVal → String
  | .null => "None"
  | .bool b => if b then "True" else "False"
  | .num n => toString n
  | .str s => (Char.ofNat 39).toString ++ s ++ (Char.ofNat 39).toString
  | .arr xs => "[" ++ pyReprList xs ++ "]"
  | .obj fs => "\x7b" ++ pyReprObj fs ++ "\x7d"

def pyReprList : List JVal → String
  | [] => ""
  | [x] => pyRepr x
  | x :: xs => pyRepr x ++ ", " ++ pyReprList xs

def pyReprObj : List (String × JVal) → String
  | [] => ""
  | [(k, v)] => pyRepr (.str k) ++ ": " ++ pyRepr v
  | (k, v) :: fs => pyRepr (.str k) ++ ": " ++ pyRepr v ++ ", " ++ pyReprObj fs
end

/-- Python `str(v)` for a JSON-decoded value: strings unchanged, everything
else as its repr. -/
def pyStr (v : JVal) : String :=
  match v with
  | .str s => s
  | v => pyRepr v

/-- Lift a primitive-error computation into the module-level error type. -/
def liftE {α : Type} : Except PrimErr α → Except PyErr α
  | .ok a => .ok a
  | .error p => .error (.prim p)

/-- Whether a result is the spec's ResponseError (SDKException('Response', _)). -/
def isRespErr {α : Type} : Except PyErr α → Bool
  | .error (.sdkResponseFailure _) => true
  | .error .sdkResponseEmpty => true
  | _ => false

/-- Whether a JSON body is an object or null - the shapes `response.json()`
takes on these endpoints (a decoded JSON object, or an empty body). -/
def isObjOrNull : JVal → Bool
  | .null => true
  | .obj _ => true
  | _ => false

/-- Whether a result is the spec's NotFoundError
(SDKException('RecoveryTarget', '102')). -/
def isNotFound {α : Type} : Except PyErr α → Bool
  | .error (.sdkTargetNotFound _) => true
  | _ => false

/-- Whether a computation succeeded. -/
def exceptIsOk {ε α : Type} : Except ε α → Bool
  | .ok _ => true
  | .error _ => false

/-- Body of a `requests` response: `jsonBody` is what `response.json()`
returns, `text` is `response.text`. -/
structure Response where
  jsonBody : JVal
  text : String

/-- The ambient client object: canned transport responses for the two GET
endpoints used by the module, plus the `_update_response_` post-processing
function supplied by the surrounding library. `make_request('GET', url)`
returns a `(flag, response)` pair; `listResponse` is the pair for
GET_ALL_RECOVERY_TARGETS, `detailResponse id` the pair for
GET_RECOVERY_TARGET % id. -/
structure Commcell where
  listResponse : Bool × Response
  detailResponse : String → Bool × Response
  upd : String → String

/-- The catalog mapping (lower-cased name to stringified id), as a Python
dict in insertion order. -/
abbrev StrDict : Type := List (String × String)

/-- Python dict assignment `d[k] = v`: replace in place if the key exists,
append otherwise. -/
def dinsert (d : StrDict) (k v : String) : StrDict :=
  if d.any fun p => decide (p.1 = k) then
    d.map fun p => if p.1 = k then (k, v) else p
  else d ++ [(k, v)]

/-- Dict lookup on the catalog mapping. -/
def dlookup (d : StrDict) (k : String) : Option String :=
  (d.find? fun p => decide (p.1 = k)).map (·.2)

/-- The body of the `for recoveryTarget in response.json()['recoveryTargets']`
loop of RecoveryTargets._get_recovery_targets: skip records whose
applicationType equals "CLEAN_ROOM", otherwise store
`d[record['name'].lower()] = str(record['id'])`. -/
def buildLoop : List JVal → StrDict → Except PrimErr StrDict
  | [], d => .ok d
  | x :: xs, d => do
    let appT ← jidxS x "applicationType"
    if !(jeqStr appT "CLEAN_ROOM") then
      let nameV ← jidxS x "name"
      let tempName ← pyLower nameV
      let idV ← jidxS x "id"
      buildLoop xs (dinsert d tempName (pyStr idV))
    else
      buildLoop xs d

/-- RecoveryTargets._get_recovery_targets: GET the list endpoint, demand a
truthy JSON body containing 'recoveryTargets', and build the name-to-id
dict, else raise SDKException('Response', '102') / ('Response', '101'). -/
def RecoveryTargets._get_recovery_targets (upd : String → String)
    (resp : Bool × Response) : Except PyErr StrDict :=
  match resp with
  | (flag, r) =>
    if flag then
      if r.jsonBody.truthy then
        match jmemE r.jsonBody "recoveryTargets" with
        | .error p => .error (.prim p)
        | .ok true =>
          liftE (do
            let lst ← jidxS r.jsonBody "recoveryTargets"
            let xs ← jelems lst
            buildLoop xs [])
        | .ok false => .error .sdkResponseEmpty
      else .error .sdkResponseEmpty
    else .error (.sdkResponseFailure (upd r.text))

/-- A well-formed record of the list endpoint: the fields the spec's list
schema gives each entry of `recoveryTargets`. -/
structure SrvRec where
  id : JVal
  name : String
  applicationType : JVal

/-- The JSON object of one list-endpoint record. -/
def recToJ (r : SrvRec) : JVal :=
  .obj [("id", r.id), ("name", .str r.name), ("applicationType", r.applicationType)]

/-- The catalog key contributed by a record: its lower-cased name. -/
def recKey (r : SrvRec) : String := pyLowerStr r.name

/-- The catalog value contributed by a record: its stringified id. -/
def recVal (r : SrvRec) : String := pyStr r.id

/-- Whether a record survives the CLEAN_ROOM filter. -/
def recKeep (r : SrvRec) : Bool := !(jeqStr r.applicationType "CLEAN_ROOM")

/-- One iteration of the catalog-building loop, as a pure fold step. -/
def catalogStep (d : StrDict) (r : SrvRec) : StrDict :=
  if recKeep r then dinsert d (recKey r) (recVal r) else d

/-- State of a RecoveryTargets instance: the cached name-to-id mapping. -/
structure RecoveryTargetsState where
  _recovery_targets : StrDict
deriving DecidableEq

/-- RecoveryTargets.all_targets. -/
def RecoveryTargets.all_targets (s : RecoveryTargetsState) : StrDict :=
  s._recovery_targets

/-- RecoveryTargets.has_recovery_target: demand a string, then return the
truthiness of `self._recovery_targets and target_name.lower() in
self._recovery_targets`. -/
def RecoveryTargets.has_recovery_target (s : RecoveryTargetsState)
    (targetName : JVal) : Except PyErr Bool :=
  match targetName with
  | .str n =>
    .ok (!s._recovery_targets.isEmpty &&
      (s._recovery_targets.any fun p => decide (p.1 = pyLowerStr n)))
  | _ => .error .sdkTargetNotString

/-- RecoveryTargets.__init__ (which immediately calls refresh): produce the
freshly loaded state, or propagate the load failure. -/
def RecoveryTargets.ctor (c : Commcell) : Except PyErr RecoveryTargetsState :=
  match RecoveryTargets._get_recovery_targets c.upd c.listResponse with
  | .ok d => .ok ⟨d⟩
  | .error e => .error e

/-- RecoveryTargets.refresh, i.e. the Python statement
`self._recovery_targets = self._get_recovery_targets()`: the right-hand side
is fully evaluated first; if it raises, the attribute store never happens, so
the pair holds the (old or new) state together with the escaping error. -/
def RecoveryTargets.refreshRun (c : Commcell) (s : RecoveryTargetsState) :
    RecoveryTargetsState × Option PyErr :=
  match RecoveryTargets._get_recovery_targets c.upd c.listResponse with
  | .ok d => (⟨d⟩, none)
  | .error e => (s, some e)

/-- State of a RecoveryTarget instance after __init__'s field
initialisation (lines 230-289 of the source). Every attribute assigned in
__init__ appears with its initial value as default; `_encryption_key_id` and
`_server_group` are NOT initialised in __init__ (they are only ever assigned
inside branch-specific extraction), so they are modelled as `Option JVal`
where `none` means the attribute does not exist on the object. -/
structure RecoveryTarget where
  _recovery_target_name : String
  _recovery_target_id : String
  _recovery_target_properties : JVal := .null
  _policy_type : JVal := .null
  _application_type : JVal := .null
  _destination_hypervisor : JVal := .null
  _access_node : JVal := .null
  _access_node_client_group : JVal := .null
  _users : JVal := .arr []
  _user_groups : JVal := .arr []
  _vm_prefix : JVal := .str ""
  _vm_suffix : JVal := .str ""
  _destination_host : JVal := .null
  _vm_storage_policy : JVal := .null
  _datastore : JVal := .null
  _resource_pool : JVal := .null
  _destination_network : JVal := .null
  _expiration_time : JVal := .null
  _failover_ma : JVal := .null
  _isolated_network : JVal := .null
  _no_of_cpu : JVal := .null
  _no_of_vm : JVal := .null
  _iso_paths : JVal := .arr []
  _resource_group : JVal := .null
  _region : JVal := .null
  _availability_zone : JVal := .null
  _storage_account : JVal := .null
  _vm_size : JVal := .null
  _disk_type : JVal := .null
  _virtual_network : JVal := .null
  _vm_folder : JVal := .null
  _security_group : JVal := .null
  _create_public_ip : JVal := .null
  _restore_as_managed_vm : JVal := .null
  _test_virtual_network : JVal := .null
  _test_security_group : JVal := .null
  _test_vm_size : JVal := .null
  _volume_type : JVal := .null
  _encryption_key : JVal := .null
  _encryption_key_id : Option JVal := none
  _iam_role_id : JVal := .null
  _iam_role_name : JVal := .null
  _instance_type : JVal := .null
  _server_group : Option JVal := none

/-- The RecoveryTarget state right after __init__'s field initialisation,
before the detail fetch. -/
def rtInitState (nm tid : String) : RecoveryTarget :=
  { _recovery_target_name := nm, _recovery_target_id := tid }

/-- RecoveryTarget._set_policy_type: map the policyType discriminant string
to the numeric policy type. -/
def RecoveryTarget._set_policy_type (p : JVal) : Int :=
  if jeqStr p "AMAZON" then 1
  else if jeqStr p "MICROSOFT" then 2
  else if jeqStr p "AZURE_RESOURCE_MANAGER" then 7
  else if jeqStr p "VMW_BACKUP_LABTEMPLATE" || jeqStr p "VMW_LIVEMOUNT" then 13
  else -1

/-- Common field extraction of _get_recovery_target_properties (source lines
329-339), performed for every policy type once the response guards have
passed. Returns the updated state together with the numeric policy type. -/
def extractCommon (props : JVal) (t : RecoveryTarget) :
    Except PrimErr (RecoveryTarget × Int) := do
  let e1 ← jgetD props "entity" (.obj []); let appT ← jget e1 "applicationType"
  let e2 ← jgetD props "entity" (.obj [])
  let dh ← jgetD e2 "destinationHypervisor" (.obj []); let dhName ← jget dh "name"
  let v1 ← jgetD props "vmDisplayName" (.obj []); let sfx ← jgetD v1 "suffix" (.str "")
  let v2 ← jgetD props "vmDisplayName" (.obj []); let pfx ← jgetD v2 "prefix" (.str "")
  let a1 ← jgetD props "accessNode" (.obj []); let an ← jgetD a1 "name" (.str "")
  let a2 ← jgetD props "accessNode" (.obj []); let anT ← jgetD a2 "type" (.str "")
  let s1 ← jgetD props "securityOptions" (.obj []); let us ← jgetD s1 "users" (.arr [])
  let s2 ← jgetD props "securityOptions" (.obj []); let ug ← jgetD s2 "userGroups" (.arr [])
  let entI ← jidxS props "entity"; let pol ← jgetD entI "policyType" (.str "")
  let pt := RecoveryTarget._set_policy_type pol
  .ok ({ t with
    _recovery_target_properties := props,
    _application_type := appT,
    _destination_hypervisor := dhName,
    _vm_suffix := sfx,
    _vm_prefix := pfx,
    _access_node := an,
    _access_node_client_group := if jeqStr anT "Group" then an else .str "",
    _users := us,
    _user_groups := ug,
    _policy_type := .num pt }, pt)

/-- AWS branch of _get_recovery_target_properties (source lines 341-359). -/
def awsExtract (props : JVal) (t : RecoveryTarget) :
    Except PrimErr RecoveryTarget := do
  let c1 ← jgetD props "cloudDestinationOptions" (.obj []); let az ← jget c1 "availabilityZone"
  let c2 ← jgetD props "cloudDestinationOptions" (.obj []); let vt ← jget c2 "volumeType"
  let c3 ← jgetD props "cloudDestinationOptions" (.obj [])
  let ek1 ← jgetD c3 "encryptionKey" (.obj []); let ekName ← jget ek1 "name"
  let c4 ← jgetD props "cloudDestinationOptions" (.obj [])
  let ek2 ← jgetD c4 "encryptionKey" (.obj []); let ekId ← jget ek2 "id"
  let d1 ← jgetD props "destinationOptions" (.obj [])
  let ir1 ← jgetD d1 "iamRole" (.obj []); let irName ← jget ir1 "name"
  let d2 ← jgetD props "destinationOptions" (.obj [])
  let ir2 ← jgetD d2 "iamRole" (.obj []); let irId ← jget ir2 "id"
  let n1 ← jgetD props "networkOptions" (.obj [])
  let nc1 ← jgetD n1 "networkCard" (.obj []); let dn ← jget nc1 "networkDisplayName"
  let s1 ← jgetD props "securityOptions" (.obj [])
  let sgs ← jgetD s1 "securityGroups" (.arr [.obj []])
  let sg0 ← jidxN sgs 0; let sgName ← jgetD sg0 "name" (.str "")
  let c5 ← jgetD props "cloudDestinationOptions" (.obj [])
  let its ← jgetD c5 "instanceTypes" (.arr [.str "Auto"]); let it0 ← jidxN its 0
  let l1 ← jgetD props "liveMountOptions" (.obj [])
  let et1 ← jgetD l1 "expirationTime" (.obj [])
  let hrs ← jgetD et1 "minutesRetainUntil" (.str "")
  let l2 ← jgetD props "liveMountOptions" (.obj [])
  let et2 ← jgetD l2 "expirationTime" (.obj [])
  let days ← jgetD et2 "daysRetainUntil" (.str "")
  let n2 ← jgetD props "networkOptions" (.obj [])
  let cn ← jgetD n2 "cloudNetwork" (.obj []); let tvn ← jget cn "label"
  let s2 ← jgetD props "securityOptions" (.obj [])
  let tsgs ← jgetD s2 "testSecurityGroups" (.arr [.obj []])
  let tsg0 ← jidxN tsgs 0; let tsgName ← jgetD tsg0 "name" (.str "")
  let c6 ← jgetD props "cloudDestinationOptions" (.obj [])
  let tvs ← jgetD c6 "vmInstanceType" (.str "Auto")
  .ok { t with
    _availability_zone := az,
    _volume_type := vt,
    _encryption_key := ekName,
    _encryption_key_id := some ekId,
    _iam_role_name := irName,
    _iam_role_id := irId,
    _destination_network := dn,
    _security_group := sgName,
    _instance_type := it0,
    _expiration_time :=
      if hrs.truthy then .str (pyStr hrs ++ " hours")
      else if days.truthy then .str (pyStr days ++ " days")
      else t._expiration_time,
    _test_virtual_network := tvn,
    _test_security_group := tsgName,
    _test_vm_size := tvs }

/-- Hyper-V branch of _get_recovery_target_properties (source lines
361-364). Note the source reads `networkNames` with no default and indexes
`[0]` directly. -/
def hypervExtract (props : JVal) (t : RecoveryTarget) :
    Except PrimErr RecoveryTarget := do
  let d1 ← jgetD props "destinationOptions" (.obj []); let vmF ← jgetD d1 "dataStore" (.str "")
  let n1 ← jgetD props "networkOptions" (.obj [])
  let nc1 ← jgetD n1 "networkCard" (.obj [])
  let nns ← jget nc1 "networkNames"
  let dn ← jidxN nns 0
  let d2 ← jgetD props "destinationOptions" (.obj [])
  let dh ← jgetD d2 "destinationHost" (.str "")
  .ok { t with
    _vm_folder := vmF,
    _destination_network := dn,
    _destination_host := dh }

/-- Azure branch of _get_recovery_target_properties (source lines 365-385). -/
def azureExtract (props : JVal) (t : RecoveryTarget) :
    Except PrimErr RecoveryTarget := do
  let d1 ← jgetD props "destinationOptions" (.obj []); let rg ← jgetD d1 "destinationHost" (.str "")
  let c1 ← jgetD props "cloudDestinationOptions" (.obj [])
  let rgn ← jgetD c1 "region" (.obj []); let rgnName ← jget rgn "name"
  let c2 ← jgetD props "cloudDestinationOptions" (.obj []); let az ← jget c2 "availabilityZone"
  let d2 ← jgetD props "destinationOptions" (.obj []); let sa ← jgetD d2 "dataStore" (.str "")
  let c3 ← jgetD props "cloudDestinationOptions" (.obj []); let vms ← jget c3 "vmInstanceType"
  let c4 ← jgetD props "cloudDestinationOptions" (.obj []); let dt ← jget c4 "volumeType"
  let n1 ← jgetD props "networkOptions" (.obj [])
  let nc1 ← jgetD n1 "networkCard" (.obj []); let vn ← jget nc1 "networkDisplayName"
  let s1 ← jgetD props "securityOptions" (.obj [])
  let sgs ← jgetD s1 "securityGroups" (.arr [.obj []])
  let sg0 ← jidxN sgs 0; let sgName ← jgetD sg0 "name" (.str "")
  let c5 ← jgetD props "cloudDestinationOptions" (.obj []); let cpi ← jget c5 "publicIP"
  let c6 ← jgetD props "cloudDestinationOptions" (.obj []); let ram ← jget c6 "restoreAsManagedVM"
  let l1 ← jgetD props "liveMountOptions" (.obj [])
  let et1 ← jgetD l1 "expirationTime" (.obj [])
  let hrs ← jgetD et1 "minutesRetainUntil" (.str "")
  let l2 ← jgetD props "liveMountOptions" (.obj [])
  let et2 ← jgetD l2 "expirationTime" (.obj [])
  let days ← jgetD et2 "daysRetainUntil" (.str "")
  let n2 ← jgetD props "networkOptions" (.obj [])
  let cn ← jgetD n2 "cloudNetwork" (.obj []); let tvn ← jget cn "label"
  let a1 ← jgetD props "amazonPolicy" (.obj [])
  let vits ← jgetD a1 "vmInstanceTypes" (.arr [.obj []])
  let vit0 ← jidxN vits 0; let tvs ← jgetD vit0 "vmInstanceTypeName" (.str "")
  .ok { t with
    _resource_group := rg,
    _region := rgnName,
    _availability_zone := az,
    _storage_account := sa,
    _vm_size := vms,
    _disk_type := dt,
    _virtual_network := vn,
    _security_group := sgName,
    _create_public_ip := cpi,
    _restore_as_managed_vm := ram,
    _expiration_time :=
      if hrs.truthy then .str (pyStr hrs ++ " hours")
      else if days.truthy then .str (pyStr days ++ " days")
      else t._expiration_time,
    _test_virtual_network := tvn,
    _test_vm_size := tvs }

/-- The conditional failover-MA assignment of the VMware branch (source
lines 400-401): only when the mediaAgent sub-document is truthy is
`props['mediaAgent']['clientName']` read and assigned; otherwise the field
keeps its old value. -/
def vmwFailoverMA (props ma old : JVal) : Except PrimErr JVal :=
  if ma.truthy then do
    let maI ← jidxS props "mediaAgent"
    jidxS maI "clientName"
  else .ok old

/-- The conditional server-group assignment of the VMware branch (source
lines 409-411): only when `props.get('associatedClientGroup')` is truthy is
`props['associatedClientGroup']['clientGroupName']` read and assigned (the
attribute comes into existence); otherwise the attribute state is
unchanged. -/
def vmwServerGroup (props acg : JVal) (old : Option JVal) :
    Except PrimErr (Option JVal) :=
  if acg.truthy then do
    let acgI ← jidxS props "associatedClientGroup"
    let cgn ← jidxS acgI "clientGroupName"
    .ok (some cgn)
  else .ok old

/-- VMware branch of _get_recovery_target_properties (source lines
386-411). -/
def vmwareExtract (props : JVal) (t : RecoveryTarget) :
    Except PrimErr RecoveryTarget := do
  let d1 ← jgetD props "destinationOptions" (.obj []); let dh ← jgetD d1 "destinationHost" (.str "")
  let d2 ← jgetD props "destinationOptions" (.obj []); let ds ← jgetD d2 "dataStore" (.str "")
  let d3 ← jgetD props "destinationOptions" (.obj []); let rp ← jgetD d3 "resourcePoolPath" (.str "")
  let d4 ← jgetD props "destinationOptions" (.obj []); let vmF ← jgetD d4 "vmFolder" (.str "")
  let n1 ← jgetD props "networkOptions" (.obj [])
  let nc1 ← jgetD n1 "networkCard" (.obj [])
  let dns ← jgetD nc1 "destinationNetworks" (.arr [])
  let vsp ← jget props "vmStoragePolicyName"
  let l1 ← jgetD props "liveMountOptions" (.obj [])
  let et1 ← jgetD l1 "expirationTime" (.obj [])
  let hrs ← jgetD et1 "minutesRetainUntil" (.str "")
  let l2 ← jgetD props "liveMountOptions" (.obj [])
  let et2 ← jgetD l2 "expirationTime" (.obj [])
  let days ← jgetD et2 "daysRetainUntil" (.str "")
  let ma ← jgetD props "mediaAgent" (.obj [])
  let fma ← vmwFailoverMA props ma t._failover_ma
  let vl ← jgetD props "virtualLabOptions" (.obj []); let isoNet ← jget vl "configureIsolatedNetwork"
  let mc ← jget props "maxCores"
  let mv ← jget props "maxVMQuota"
  let isoL ← jgetD props "isoInfo" (.arr [])
  let isoEls ← jelems isoL
  let paths ← isoEls.mapM fun iso => jidxS iso "isoPath"
  let acg ← jget props "associatedClientGroup"
  let sg ← vmwServerGroup props acg t._server_group
  .ok { t with
    _destination_host := dh,
    _datastore := ds,
    _resource_pool := rp,
    _vm_folder := vmF,
    _destination_network := dns,
    _vm_storage_policy := vsp,
    _expiration_time :=
      if hrs.truthy then .str (pyStr hrs ++ " hours")
      else if days.truthy then .str (pyStr days ++ " days")
      else t._expiration_time,
    _failover_ma := fma,
    _isolated_network := isoNet,
    _no_of_cpu := mc,
    _no_of_vm := mv,
    _iso_paths := .arr paths,
    _server_group := sg }

/-- Field extraction of _get_recovery_target_properties after the response
guards: common fields, then exactly the branch selected by the numeric
policy type (no branch for an unrecognised type). -/
def extractFields (props : JVal) (t : RecoveryTarget) :
    Except PrimErr RecoveryTarget := do
  let r ← extractCommon props t
  let t1 := r.1
  let pt := r.2
  if pt = 1 then awsExtract props t1
  else if pt = 2 then hypervExtract props t1
  else if pt = 7 then azureExtract props t1
  else if pt = 13 then vmwareExtract props t1
  else .ok t1

/-- RecoveryTarget._get_recovery_target_properties: GET the detail endpoint,
demand a truthy JSON body containing 'entity', then run the field
extraction; else raise SDKException('Response', '102') / ('Response', '101'). -/
def RecoveryTarget._get_recovery_target_properties (upd : String → String)
    (resp : Bool × Response) (t : RecoveryTarget) : Except PyErr RecoveryTarget :=
  match resp with
  | (flag, r) =>
    if flag then
      if r.jsonBody.truthy then
        match jmemE r.jsonBody "entity" with
        | .error p => .error (.prim p)
        | .ok true => liftE (extractFields r.jsonBody t)
        | .ok false => .error .sdkResponseEmpty
      else .error .sdkResponseEmpty
    else .error (.sdkResponseFailure (upd r.text))

/-- RecoveryTarget._get_recovery_target_id: build a transient
RecoveryTargets (loading the catalog), then index its all_targets dict with
this target's (already lower-cased) name - a raw dict indexing, raising
KeyError when absent. -/
def RecoveryTarget._get_recovery_target_id (c : Commcell) (nm : String) :
    Except PyErr String := do
  let s ← RecoveryTargets.ctor c
  match dlookup (RecoveryTargets.all_targets s) nm with
  | some i => .ok i
  | none => .error (.prim (.keyError nm))

/-- Tail of RecoveryTarget.__init__ once the id is known: initialise the
fields and run the detail fetch (refresh). -/
def RecoveryTarget.ctorWithId (c : Commcell) (nm tid : String) :
    Except PyErr RecoveryTarget :=
  RecoveryTarget._get_recovery_target_properties c.upd (c.detailResponse tid)
    (rtInitState nm tid)

/-- RecoveryTarget.__init__: lower-case the name; use the given id if truthy
(a non-empty string), else resolve it through a transient catalog; then
fetch the detail document. -/
def RecoveryTarget.ctor (c : Commcell) (name : String) (idArg : Option String) :
    Except PyErr RecoveryTarget :=
  let nm := pyLowerStr name
  match idArg with
  | some i =>
    if i ≠ "" then RecoveryTarget.ctorWithId c nm i
    else do
      let tid ← RecoveryTarget._get_recovery_target_id c nm
      RecoveryTarget.ctorWithId c nm tid
  | none => do
    let tid ← RecoveryTarget._get_recovery_target_id c nm
    RecoveryTarget.ctorWithId c nm tid

/-- RecoveryTargets.get: demand a string, lower-case it, check membership via
has_recovery_target, and construct a RecoveryTarget with the cached id;
raise SDKException('Target', '101') on a non-string and
SDKException('RecoveryTarget', '102') when absent. -/
def RecoveryTargets.get (c : Commcell) (s : RecoveryTargetsState)
    (recoveryTargetName : JVal) : Except PyErr RecoveryTarget :=
  match recoveryTargetName with
  | .str n =>
    let nm := pyLowerStr n
    match RecoveryTargets.has_recovery_target s (.str nm) with
    | .error e => .error e
    | .ok true =>
      match dlookup (RecoveryTargets.all_targets s) nm with
      | some i => RecoveryTarget.ctor c nm (some i)
      | none => .error (.prim (.keyError nm))
    | .ok false =>
      .error (.sdkTargetNotFound ("No target exists with name: " ++ nm))
  | _ => .error .sdkTargetNotString

/-- Property recovery_target_id. -/
def RecoveryTarget.recovery_target_id (t : RecoveryTarget) : String :=
  t._recovery_target_id

/-- Property recovery_target_name. -/
def RecoveryTarget.recovery_target_name (t : RecoveryTarget) : String :=
  t._recovery_target_name

/-- Property policy_type. -/
def RecoveryTarget.policy_type (t : RecoveryTarget) : JVal := t._policy_type

/-- Property application_type. -/
def RecoveryTarget.application_type (t : RecoveryTarget) : JVal :=
  t._application_type

/-- Property destination_hypervisor. -/
def RecoveryTarget.destination_hypervisor (t : RecoveryTarget) : JVal :=
  t._destination_hypervisor

/-- Property access_node. -/
def RecoveryTarget.access_node (t : RecoveryTarget) : JVal := t._access_node

/-- Property access_node_client_group. -/
def RecoveryTarget.access_node_client_group (t : RecoveryTarget) : JVal :=
  t._access_node_client_group

/-- Property security_user_names: a list comprehension indexing each user
record, so it can itself raise on malformed user entries. -/
def RecoveryTarget.security_user_names (t : RecoveryTarget) :
    Except PrimErr JVal := do
  let us ← jelems t._users
  let names ← us.mapM fun u => jidxS u "userName"
  .ok (.arr names)

/-- Property vm_prefix. -/
def RecoveryTarget.vm_prefix (t : RecoveryTarget) : JVal :=
  RecoveryTarget._vm_prefix t

/-- Property vm_suffix. -/
def RecoveryTarget.vm_suffix (t : RecoveryTarget) : JVal := t._vm_suffix

/-- Property destination_host. -/
def RecoveryTarget.destination_host (t : RecoveryTarget) : JVal :=
  t._destination_host

/-- Property vm_storage_policy. -/
def RecoveryTarget.vm_storage_policy (t : RecoveryTarget) : JVal :=
  t._vm_storage_policy

/-- Property datastore. -/
def RecoveryTarget.datastore (t : RecoveryTarget) : JVal := t._datastore

/-- Property resource_pool. -/
def RecoveryTarget.resource_pool (t : RecoveryTarget) : JVal :=
  t._resource_pool

/-- Property vm_folder. -/
def RecoveryTarget.vm_folder (t : RecoveryTarget) : JVal := t._vm_folder

/-- Property destination_network. -/
def RecoveryTarget.destination_network (t : RecoveryTarget) : JVal :=
  t._destination_network

/-- Property expiration_time. -/
def RecoveryTarget.expiration_time (t : RecoveryTarget) : JVal :=
  t._expiration_time

/-- Property failover_ma. -/
def RecoveryTarget.failover_ma (t : RecoveryTarget) : JVal := t._failover_ma

/-- Property isolated_network. -/
def RecoveryTarget.isolated_network (t : RecoveryTarget) : JVal :=
  t._isolated_network

/-- Property iso_path. -/
def RecoveryTarget.iso_path (t : RecoveryTarget) : JVal := t._iso_paths

/-- Property server_group: reads `self._server_group`, an attribute that
__init__ never initialises - accessing it on an object where the VMware
branch did not assign it raises AttributeError. -/
def RecoveryTarget.server_group (t : RecoveryTarget) : Except PrimErr JVal :=
  match t._server_group with
  | some v => .ok v
  | none => .error .attributeError

/-- Property no_of_cpu. -/
def RecoveryTarget.no_of_cpu (t : RecoveryTarget) : JVal := t._no_of_cpu

/-- Property no_of_vm. -/
def RecoveryTarget.no_of_vm (t : RecoveryTarget) : JVal := t._no_of_vm

/-- Property resource_group. -/
def RecoveryTarget.resource_group (t : RecoveryTarget) : JVal :=
  t._resource_group

/-- Property region. -/
def RecoveryTarget.region (t : RecoveryTarget) : JVal := t._region

/-- Property availability_zone. -/
def RecoveryTarget.availability_zone (t : RecoveryTarget) : JVal :=
  t._availability_zone

/-- Property storage_account. -/
def RecoveryTarget.storage_account (t : RecoveryTarget) : JVal :=
  t._storage_account

/-- Property vm_size. -/
def RecoveryTarget.vm_size (t : RecoveryTarget) : JVal := t._vm_size

/-- Property disk_type. -/
def RecoveryTarget.disk_type (t : RecoveryTarget) : JVal := t._disk_type

/-- Property virtual_network. -/
def RecoveryTarget.virtual_network (t : RecoveryTarget) : JVal :=
  t._virtual_network

/-- Property security_group. -/
def RecoveryTarget.security_group (t : RecoveryTarget) : JVal :=
  t._security_group

/-- Property create_public_ip. -/
def RecoveryTarget.create_public_ip (t : RecoveryTarget) : JVal :=
  t._create_public_ip

/-- Property restore_as_managed_vm. -/
def RecoveryTarget.restore_as_managed_vm (t : RecoveryTarget) : JVal :=
  t._restore_as_managed_vm

/-- Property test_virtual_network. -/
def RecoveryTarget.test_virtual_network (t : RecoveryTarget) : JVal :=
  t._test_virtual_network

/-- Property test_security_group. -/
def RecoveryTarget.test_security_group (t : RecoveryTarget) : JVal :=
  t._test_security_group

/-- Property test_vm_size. -/
def RecoveryTarget.test_vm_size (t : RecoveryTarget) : JVal := t._test_vm_size

/-- Property volume_type. -/
def RecoveryTarget.volume_type (t : RecoveryTarget) : JVal := t._volume_type

/-- Property encryption_key. -/
def RecoveryTarget.encryption_key (t : RecoveryTarget) : JVal :=
  t._encryption_key

/-- Property iam_role_id. -/
def RecoveryTarget.iam_role_id (t : RecoveryTarget) : JVal := t._iam_role_id

/-- Property iam_role_name. -/
def RecoveryTarget.iam_role_name (t : RecoveryTarget) : JVal :=
  t._iam_role_name

/-- Property instance_type. -/
def RecoveryTarget.instance_type (t : RecoveryTarget) : JVal :=
  t._instance_type

/-- The JVal-typed fields assigned only by the Hyper-V, Azure or VMware
branches and never by the AWS branch (the Option-typed `_server_group` is
handled separately in the theorems). -/
def nonAWSVariantFields (t : RecoveryTarget) : List JVal :=
  [t._vm_folder, t._destination_host, t._resource_group, t._region,
   t._storage_account, t._vm_size, t._disk_type, t._virtual_network,
   t._create_public_ip, t._restore_as_managed_vm, t._datastore,
   t._resource_pool, t._vm_storage_policy, t._failover_ma,
   t._isolated_network, t._no_of_cpu, t._no_of_vm, t._iso_paths]

/-- The __init__ default values of `nonAWSVariantFields`, in the same
order. -/
def nonAWSVariantDefaults : List JVal :=
  [.null, .null, .null, .null, .null, .null, .null, .null, .null, .null,
   .null, .null, .null, .null, .null, .null, .null, .arr []]

/-- All JVal-typed fields assigned by any of the four policy-specific
branches. -/
def allVariantFields (t : RecoveryTarget) : List JVal :=
  nonAWSVariantFields t ++
  [t._availability_zone, t._volume_type, t._encryption_key,
   t._iam_role_name, t._iam_role_id, t._destination_network,
   t._security_group, t._instance_type, t._expiration_time,
   t._test_virtual_network, t._test_security_group, t._test_vm_size]

/-- The __init__ default values of `allVariantFields`, in the same order. -/
def allVariantDefaults : List JVal :=
  nonAWSVariantDefaults ++
  [.null, .null, .null, .null, .null, .null, .null, .null, .null, .null,
   .null, .null]

theorem except_bind_ok {ε α β : Type} (e : Except ε α) (f : α → Except ε β) (b : β) :
    (e >>= f) = .ok b ↔ ∃ a, e = .ok a ∧ f a = .ok b := by
  cases e <;> simp [Bind.bind, Except.bind]

theorem except_bind_err {ε α β : Type} (e : Except ε α) (f : α → Except ε β) (x : ε) :
    (e >>= f) = .error x ↔ e = .error x ∨ ∃ a, e = .ok a ∧ f a = .error x := by
  cases e <;> simp [Bind.bind, Except.bind]

theorem charToNat_ofNat (n : Nat) (h : n.isValidChar) : (Char.ofNat n).toNat = n := by
  unfold Char.ofNat
  rw [dif_pos h]
  simp [Char.ofNatAux, Char.toNat, UInt32.toNat, BitVec.toNat_ofNatLt]

theorem lowerChar_idem (c : Char) : lowerChar (lowerChar c) = lowerChar c := by
  unfold lowerChar
  split
  · next h =>
    have hv : (c.toNat + 32).isValidChar := by
      left
      have := h.2
      omega
    rw [charToNat_ofNat _ hv]
    have hn : ¬(65 ≤ c.toNat + 32 ∧ c.toNat + 32 ≤ 90) := by
      have := h.1
      omega
    rw [if_neg hn]
  · rfl

theorem pyLowerStr_idem (s : String) : pyLowerStr (pyLowerStr s) = pyLowerStr s := by
  unfold pyLowerStr
  simp only [List.map_map]
  congr 1
  apply List.map_congr_left
  intro c _
  exact lowerChar_idem c

theorem jeqStr_eq_true_iff (v : JVal) (s : String) :
    jeqStr v s = true ↔ v = .str s := by
  cases v <;> simp [jeqStr]

theorem jeqStr_eq_false_iff (v : JVal) (s : String) :
    jeqStr v s = false ↔ v ≠ .str s := by
  cases v <;> simp [jeqStr]

theorem recKeep_eq_true_iff (r : SrvRec) :
    recKeep r = true ↔ r.applicationType ≠ .str "CLEAN_ROOM" := by
  simp only [recKeep, Bool.not_eq_true']
  exact jeqStr_eq_false_iff _ _

theorem isRespErr_liftE {α : Type} (e : Except PrimErr α) :
    isRespErr (liftE e) = false := by
  cases e <;> simp [liftE, isRespErr]

theorem buildLoop_cons (r : SrvRec) (l : List JVal) (d : StrDict) :
    buildLoop (recToJ r :: l) d =
      if recKeep r then buildLoop l (dinsert d (recKey r) (recVal r))
      else buildLoop l d := rfl

theorem buildLoop_records (rs : List SrvRec) (d : StrDict) :
    buildLoop (rs.map recToJ) d = .ok (rs.foldl catalogStep d) := by
  induction rs generalizing d with
  | nil => rfl
  | cons r rs ih =>
    rw [List.map_cons, buildLoop_cons, List.foldl_cons]
    by_cases h : recKeep r <;> simp [h, catalogStep, ih]

theorem dlookup_cons (a b : String) (d : StrDict) (k : String) :
    dlookup ((a, b) :: d) k = if a = k then some b else dlookup d k := by
  by_cases h : a = k <;> simp [dlookup, List.find?_cons, h]

theorem dlookup_eq_none_iff (d : StrDict) (k : String) :
    dlookup d k = none ↔ k ∉ d.map Prod.fst := by
  simp only [dlookup, Option.map_eq_none', List.find?_eq_none, decide_eq_true_eq,
    List.mem_map, not_exists, not_and]

theorem dinsert_of_not_mem (d : StrDict) (k v : String)
    (h : k ∉ d.map Prod.fst) : dinsert d k v = d ++ [(k, v)] := by
  unfold dinsert
  rw [if_neg]
  simp only [List.any_eq_true, not_exists, not_and, decide_eq_true_eq]
  intro p hp hk
  exact h (List.mem_map.mpr ⟨p, hp, hk⟩)

theorem foldl_catalogStep (rs : List SrvRec) (d : StrDict)
    (h : (d.map Prod.fst ++ (rs.filter recKeep).map recKey).Nodup) :
    rs.foldl catalogStep d =
      d ++ (rs.filter recKeep).map fun r => (recKey r, recVal r) := by
  induction rs generalizing d with
  | nil => simp
  | cons r rs ih =>
    rw [List.foldl_cons]
    by_cases hk : recKeep r
    · rw [List.filter_cons_of_pos hk] at h ⊢
      simp only [List.map_cons] at h
      have hnotin : recKey r ∉ d.map Prod.fst := by
        rcases (List.nodup_append.mp h) with ⟨-, -, hdisj⟩
        intro hmem
        exact hdisj hmem (List.mem_cons_self _ _)
      have hins : catalogStep d r = d ++ [(recKey r, recVal r)] := by
        simp [catalogStep, hk, dinsert_of_not_mem d _ _ hnotin]
      rw [hins, ih]
      · simp
      · simpa using h
    · rw [List.filter_cons_of_neg hk] at h ⊢
      have hstep : catalogStep d r = d := by simp [catalogStep, hk]
      rw [hstep, ih _ h]

theorem dlookup_recPairs (l : List SrvRec) (hnd : (l.map recKey).Nodup)
    (k v : String) :
    dlookup (l.map fun r => (recKey r, recVal r)) k = some v ↔
      ∃ r ∈ l, recKey r = k ∧ recVal r = v := by
  induction l with
  | nil => simp [dlookup]
  | cons r l ih =>
    simp only [List.map_cons, List.nodup_cons] at hnd
    rw [List.map_cons, dlookup_cons]
    by_cases h : recKey r = k
    · rw [if_pos h]
      simp only [Option.some.injEq]
      constructor
      · rintro rfl
        exact ⟨r, List.mem_cons_self _ _, h, rfl⟩
      · rintro ⟨q, hq, hqk, rfl⟩
        rcases List.mem_cons.mp hq with rfl | hq2
        · rfl
        · exfalso
          apply hnd.1
          rw [h, ← hqk]
          exact List.mem_map_of_mem recKey hq2
    · rw [if_neg h, ih hnd.2]
      constructor
      · rintro ⟨q, hq, hqk, hqv⟩
        exact ⟨q, List.mem_cons_of_mem _ hq, hqk, hqv⟩
      · rintro ⟨q, hq, hqk, hqv⟩
        rcases List.mem_cons.mp hq with rfl | hq2
        · exact absurd hqk h
        · exact ⟨q, hq2, hqk, hqv⟩

/-- C1: for every successful list response whose body contains the key
'recoveryTargets' (bound to a sequence of records with pairwise-distinct
lower-cased names, as the spec's data model requires), the catalog produced
by RecoveryTargets._get_recovery_targets contains exactly the records whose
applicationType is not "CLEAN_ROOM", keyed by lower-cased name with the
stringified id as value; CLEAN_ROOM records are absent. -/
theorem c1_catalog_load (upd : String → String) (txt : String)
    (fs : List (String × JVal)) (rs : List SrvRec)
    (hfind : jfindList fs "recoveryTargets" = some (.arr (rs.map recToJ)))
    (hnd : (rs.map fun r => pyLowerStr r.name).Nodup) :
    ∃ d, RecoveryTargets._get_recovery_targets upd (true, ⟨.obj fs, txt⟩) = .ok d ∧
      ∀ k v, dlookup d k = some v ↔
        ∃ r ∈ rs, r.applicationType ≠ .str "CLEAN_ROOM" ∧
          pyLowerStr r.name = k ∧ pyStr r.id = v := by
  obtain ⟨p, hp⟩ : ∃ p, fs.find? (fun q => decide (q.1 = "recoveryTargets")) = some p := by
    rcases hof : fs.find? (fun q => decide (q.1 = "recoveryTargets")) with _ | p
    · rw [jfindList, hof] at hfind
      simp at hfind
    · exact ⟨p, hof⟩
  have hmem : p ∈ fs := List.mem_of_find?_eq_some hp
  have hpred := List.find?_some hp
  have htr : (JVal.obj fs).truthy = true := by
    cases fs with
    | nil => simp at hmem
    | cons a l => rfl
  have hany : (fs.any fun q => decide (q.1 = "recoveryTargets")) = true :=
    List.any_eq_true.mpr ⟨p, hmem, hpred⟩
  have hidx : jidxS (.obj fs) "recoveryTargets" = .ok (.arr (rs.map recToJ)) := by
    simp [jidxS, hfind]
  have hnd2 : ((rs.filter recKeep).map recKey).Nodup := by
    have hsub : ((rs.filter recKeep).map recKey).Sublist (rs.map recKey) :=
      (List.filter_sublist rs).map recKey
    exact (show (rs.map recKey).Nodup from hnd).sublist hsub
  refine ⟨(rs.filter recKeep).map (fun r => (recKey r, recVal r)), ?_, ?_⟩
  · have hstep : RecoveryTargets._get_recovery_targets upd (true, ⟨.obj fs, txt⟩) =
        liftE (do
          let lst ← jidxS (.obj fs) "recoveryTargets"
          let xs ← jelems lst
          buildLoop xs []) := by
      simp [RecoveryTargets._get_recovery_targets, htr, jmemE, hany]
    rw [hstep, hidx]
    have hbl : buildLoop (rs.map recToJ) [] =
        .ok ((rs.filter recKeep).map fun r => (recKey r, recVal r)) := by
      rw [buildLoop_records, foldl_catalogStep]
      · simp
      · simpa using hnd2
    simp only [Bind.bind, Except.bind, jelems, hbl, liftE]
  · intro k v
    rw [dlookup_recPairs _ hnd2]
    constructor
    · rintro ⟨r, hr, hk, hv⟩
      rcases List.mem_filter.mp hr with ⟨hrs, hkeep⟩
      exact ⟨r, hrs, (recKeep_eq_true_iff r).mp hkeep, hk, hv⟩
    · rintro ⟨r, hrs, hcr, hk, hv⟩
      exact ⟨r, List.mem_filter.mpr ⟨hrs, (recKeep_eq_true_iff r).mpr hcr⟩, hk, hv⟩

/-- Witness for C1: the spec's scenario - two records, one CLEAN_ROOM; the
catalog maps tgt1 to "1" and contains nothing else. -/
theorem c1_catalog_load_witness :
    ∃ d, RecoveryTargets._get_recovery_targets (fun s => s) (true,
        ⟨.obj [("recoveryTargets", .arr ([
          SrvRec.mk (.num 1) "Tgt1" (.str "REGULAR"),
          SrvRec.mk (.num 2) "CR" (.str "CLEAN_ROOM")].map recToJ))], ""⟩) = .ok d ∧
      ∀ k v, dlookup d k = some v ↔
        ∃ r ∈ [SrvRec.mk (.num 1) "Tgt1" (.str "REGULAR"),
               SrvRec.mk (.num 2) "CR" (.str "CLEAN_ROOM")],
          r.applicationType ≠ .str "CLEAN_ROOM" ∧
          pyLowerStr r.name = k ∧ pyStr r.id = v :=
  c1_catalog_load (fun s => s) "" _ _ rfl (by decide)

/-- C3: RecoveryTarget._set_policy_type resolves every string discriminant
as the spec's table does: AMAZON to 1, MICROSOFT to 2,
AZURE_RESOURCE_MANAGER to 7, the two VMW codes to 13, anything else to -1. -/
theorem c3_policy_type_mapping (s : String) :
    RecoveryTarget._set_policy_type (.str s) =
      if s = "AMAZON" then 1
      else if s = "MICROSOFT" then 2
      else if s = "AZURE_RESOURCE_MANAGER" then 7
      else if s = "VMW_BACKUP_LABTEMPLATE" ∨ s = "VMW_LIVEMOUNT" then 13
      else -1 := by
  simp [RecoveryTarget._set_policy_type, jeqStr]

/-- C7 is a code bug: the claim (and the method's own docstring) says the
extraction never raises on missing nested keys, but on a successful Hyper-V
detail response whose networkOptions are absent the source line
`...get("networkCard", \x7b\x7d).get("networkNames")[0]` evaluates `None[0]` and
raises TypeError. This theorem evaluates the embedded code at that failing
input. -/
theorem c7_hyperv_missing_network_names_raises :
    RecoveryTarget._get_recovery_target_properties (fun s => s)
      (true, ⟨.obj [("entity", .obj [("policyType", .str "MICROSOFT")])], ""⟩)
      (rtInitState "t" "1") = .error (.prim .typeError) := rfl

/-- C8 is a code bug: the claim says every accessor returns its unset
default when the field was not populated for the target's policy type, but
`_server_group` is never initialised in __init__, so reading server_group on
a freshly loaded AWS target raises AttributeError instead of returning a
default. This theorem evaluates the embedded code at that failing input. -/
theorem c8_server_group_attribute_error :
    Except.map RecoveryTarget.server_group
      (RecoveryTarget._get_recovery_target_properties (fun s => s)
        (true, ⟨.obj [("entity", .obj [("policyType", .str "AMAZON")])], ""⟩)
        (rtInitState "t" "1")) = .ok (.error .attributeError) := rfl

/-- C10: RecoveryTargets.refresh is atomic on error - the new mapping is
fully built before the single attribute store, so when the reload raises,
the cached state is unchanged and all_targets, has_recovery_target and get
observe exactly the old catalog. -/
theorem c10_refresh_atomic (c : Commcell) (s : RecoveryTargetsState) (e : PyErr)
    (h : (RecoveryTargets.refreshRun c s).2 = some e) :
    (RecoveryTargets.refreshRun c s).1 = s ∧
    RecoveryTargets.all_targets (RecoveryTargets.refreshRun c s).1 =
      RecoveryTargets.all_targets s ∧
    (∀ v, RecoveryTargets.has_recovery_target (RecoveryTargets.refreshRun c s).1 v =
      RecoveryTargets.has_recovery_target s v) ∧
    (∀ cc v, RecoveryTargets.get cc (RecoveryTargets.refreshRun c s).1 v =
      RecoveryTargets.get cc s v) := by
  cases hres : RecoveryTargets._get_recovery_targets c.upd c.listResponse with
  | ok d =>
    rw [RecoveryTargets.refreshRun, hres] at h
    simp at h
  | error er =>
    rw [RecoveryTargets.refreshRun, hres] at h ⊢
    exact ⟨rfl, rfl, fun v => rfl, fun cc v => rfl⟩

/-- Witness for C10 at a concrete failing reload. -/
theorem c10_refresh_atomic_witness :
    (RecoveryTargets.refreshRun
        ⟨(false, ⟨.null, "boom"⟩), fun _ => (false, ⟨.null, ""⟩), fun s => s⟩
        ⟨[("t", "5")]⟩).1 = ⟨[("t", "5")]⟩ ∧
    RecoveryTargets.all_targets (RecoveryTargets.refreshRun
        ⟨(false, ⟨.null, "boom"⟩), fun _ => (false, ⟨.null, ""⟩), fun s => s⟩
        ⟨[("t", "5")]⟩).1 =
      RecoveryTargets.all_targets ⟨[("t", "5")]⟩ ∧
    (∀ v, RecoveryTargets.has_recovery_target (RecoveryTargets.refreshRun
        ⟨(false, ⟨.null, "boom"⟩), fun _ => (false, ⟨.null, ""⟩), fun s => s⟩
        ⟨[("t", "5")]⟩).1 v =
      RecoveryTargets.has_recovery_target ⟨[("t", "5")]⟩ v) ∧
    (∀ cc v, RecoveryTargets.get cc (RecoveryTargets.refreshRun
        ⟨(false, ⟨.null, "boom"⟩), fun _ => (false, ⟨.null, ""⟩), fun s => s⟩
        ⟨[("t", "5")]⟩).1 v =
      RecoveryTargets.get cc ⟨[("t", "5")]⟩ v) :=
  c10_refresh_atomic _ _ (.sdkResponseFailure "boom") rfl

theorem guard_isRespErr {α : Type} (fl : Bool) (r : Response) (key : String)
    (upd : String → String) (cont : Except PrimErr α)
    (h : isObjOrNull r.jsonBody = true) :
    (isRespErr (if fl then
        (if r.jsonBody.truthy then
          match jmemE r.jsonBody key with
          | Except.error p => Except.error (PyErr.prim p)
          | Except.ok true => liftE cont
          | Except.ok false => Except.error PyErr.sdkResponseEmpty
        else Except.error PyErr.sdkResponseEmpty)
      else Except.error (PyErr.sdkResponseFailure (upd r.text))) = true ↔
      (fl = false ∨ r.jsonBody.truthy = false ∨ jhasKey r.jsonBody key = false)) ∧
    (fl = false → (if fl then
        (if r.jsonBody.truthy then
          match jmemE r.jsonBody key with
          | Except.error p => Except.error (PyErr.prim p)
          | Except.ok true => liftE cont
          | Except.ok false => Except.error PyErr.sdkResponseEmpty
        else Except.error PyErr.sdkResponseEmpty)
      else Except.error (PyErr.sdkResponseFailure (upd r.text))) =
        Except.error (PyErr.sdkResponseFailure (upd r.text))) := by
  cases fl with
  | false => simp [isRespErr]
  | true =>
    simp only [if_true, Bool.true_eq_false, false_or]
    constructor
    · cases hb : r.jsonBody with
      | null => simp [JVal.truthy, isRespErr, jhasKey]
      | obj fs =>
        cases fs with
        | nil => simp [JVal.truthy, isRespErr, jhasKey, List.isEmpty]
        | cons q qs =>
          have hm : jmemE (.obj (q :: qs)) key =
              .ok ((q :: qs).any fun p => decide (p.1 = key)) := rfl
          cases hany : (q :: qs).any fun p => decide (p.1 = key) with
          | true =>
            simp [JVal.truthy, List.isEmpty_cons, hm, hany, isRespErr_liftE, jhasKey]
          | false =>
            simp [JVal.truthy, List.isEmpty_cons, hm, hany, isRespErr, jhasKey]
      | bool b => rw [hb] at h; simp [isObjOrNull] at h
      | num n => rw [hb] at h; simp [isObjOrNull] at h
      | str s => rw [hb] at h; simp [isObjOrNull] at h
      | arr xs => rw [hb] at h; simp [isObjOrNull] at h
    · intro hff
      exact absurd hff (by simp)

/-- C9: RecoveryTargets._get_recovery_targets and
RecoveryTarget._get_recovery_target_properties raise the spec's
ResponseError exactly when the transport flag is false (the error carrying
the processed response text) or when the transport succeeded but the body is
empty (falsy) or lacks the expected top-level key ('recoveryTargets'
respectively 'entity'); in every other situation the result - success or a
different error - is not a ResponseError. -/
theorem c9_response_error_conditions (upd : String → String) (fl1 fl2 : Bool)
    (r1 r2 : Response) (t : RecoveryTarget)
    (h1 : isObjOrNull r1.jsonBody = true) (h2 : isObjOrNull r2.jsonBody = true) :
    (isRespErr (RecoveryTargets._get_recovery_targets upd (fl1, r1)) = true ↔
      (fl1 = false ∨ r1.jsonBody.truthy = false ∨
        jhasKey r1.jsonBody "recoveryTargets" = false)) ∧
    (fl1 = false → RecoveryTargets._get_recovery_targets upd (fl1, r1) =
      .error (.sdkResponseFailure (upd r1.text))) ∧
    (isRespErr (RecoveryTarget._get_recovery_target_properties upd (fl2, r2) t) = true ↔
      (fl2 = false ∨ r2.jsonBody.truthy = false ∨
        jhasKey r2.jsonBody "entity" = false)) ∧
    (fl2 = false → RecoveryTarget._get_recovery_target_properties upd (fl2, r2) t =
      .error (.sdkResponseFailure (upd r2.text))) := by
  have g1 := guard_isRespErr (α := StrDict) fl1 r1 "recoveryTargets" upd
    (do
      let lst ← jidxS r1.jsonBody "recoveryTargets"
      let xs ← jelems lst
      buildLoop xs []) h1
  have g2 := guard_isRespErr (α := RecoveryTarget) fl2 r2 "entity" upd
    (extractFields r2.jsonBody t) h2
  exact ⟨g1.1, g1.2, g2.1, g2.2⟩

/-- Witness for C9: a failed transport produces exactly the
ResponseError carrying the processed body text. -/
theorem c9_response_error_conditions_witness :
    RecoveryTargets._get_recovery_targets (fun s => s) (false, ⟨.null, "oops"⟩) =
      .error (.sdkResponseFailure "oops") :=
  (c9_response_error_conditions (fun s => s) false true ⟨.null, "oops"⟩
    ⟨.obj [("entity", .obj [])], ""⟩ (rtInitState "t" "1") rfl rfl).2.1 rfl

theorem liftE_eq_ok {α : Type} (e : Except PrimErr α) (a : α) :
    liftE e = .ok a ↔ e = .ok a := by
  cases e <;> simp [liftE]

theorem exceptIsOk_eq_true_iff {ε α : Type} (e : Except ε α) :
    exceptIsOk e = true ↔ ∃ a, e = .ok a := by
  cases e <;> simp [exceptIsOk]

theorem awsExtract_ok (props : JVal) (t t' : RecoveryTarget)
    (h : awsExtract props t = .ok t') :
    nonAWSVariantFields t' = nonAWSVariantFields t ∧
    t'._server_group = t._server_group ∧
    t'._policy_type = t._policy_type ∧
    (∀ lm et hrs2 days2,
      jgetD props "liveMountOptions" (.obj []) = .ok lm →
      jgetD lm "expirationTime" (.obj []) = .ok et →
      jgetD et "minutesRetainUntil" (.str "") = .ok hrs2 →
      jgetD et "daysRetainUntil" (.str "") = .ok days2 →
      t'._expiration_time =
        (if hrs2.truthy then .str (pyStr hrs2 ++ " hours")
         else if days2.truthy then .str (pyStr days2 ++ " days")
         else t._expiration_time)) := by
  simp only [awsExtract, except_bind_ok, Except.ok.injEq] at h
  obtain ⟨c1, hc1, az, haz, c2, hc2, vt, hvt, c3, hc3, ek1, hek1, ekName, hekName,
    c4, hc4, ek2, hek2, ekId, hekId, d1, hd1, ir1, hir1, irName, hirName,
    d2, hd2, ir2, hir2, irId, hirId, n1, hn1, nc1, hnc1, dn, hdn,
    s1, hs1, sgs, hsgs, sg0, hsg0, sgName, hsgName, c5, hc5, its, hits, it0, hit0,
    l1, hl1, et1, het1, hrs, hhrs, l2, hl2, et2, het2, days, hdays,
    n2, hn2, cn, hcn, tvn, htvn, s2, hs2, tsgs, htsgs, tsg0, htsg0, tsgName, htsgName,
    c6, hc6, tvs, htvs, hfin⟩ := h
  subst hfin
  refine ⟨rfl, rfl, rfl, ?_⟩
  intro lm et hrs2 days2 hlm het hhrs2 hdays2
  rw [hl1] at hlm
  injection hlm with hlm
  subst hlm
  rw [hl1] at hl2
  injection hl2 with hl2
  subst hl2
  rw [het1] at het
  injection het with het
  subst het
  rw [het1] at het2
  injection het2 with het2
  subst het2
  rw [hhrs] at hhrs2
  injection hhrs2 with hhrs2
  subst hhrs2
  rw [hdays] at hdays2
  injection hdays2 with hdays2
  subst hdays2
  rfl

theorem azureExtract_ok (props : JVal) (t t' : RecoveryTarget)
    (h : azureExtract props t = .ok t') :
    (∀ lm et hrs2 days2,
      jgetD props "liveMountOptions" (.obj []) = .ok lm →
      jgetD lm "expirationTime" (.obj []) = .ok et →
      jgetD et "minutesRetainUntil" (.str "") = .ok hrs2 →
      jgetD et "daysRetainUntil" (.str "") = .ok days2 →
      t'._expiration_time =
        (if hrs2.truthy then .str (pyStr hrs2 ++ " hours")
         else if days2.truthy then .str (pyStr days2 ++ " days")
         else t._expiration_time)) := by
  simp only [azureExtract, except_bind_ok, Except.ok.injEq] at h
  obtain ⟨d1, hd1, rg, hrg, c1, hc1, rgn, hrgn, rgnName, hrgnName, c2, hc2, az, haz,
    d2, hd2, sa, hsa, c3, hc3, vms, hvms, c4, hc4, dt, hdt, n1, hn1, nc1, hnc1,
    vn, hvn, s1, hs1, sgs, hsgs, sg0, hsg0, sgName, hsgName, c5, hc5, cpi, hcpi,
    c6, hc6, ram, hram, l1, hl1, et1, het1, hrs, hhrs, l2, hl2, et2, het2,
    days, hdays, n2, hn2, cn, hcn, tvn, htvn, a1, ha1, vits, hvits, vit0, hvit0,
    tvs, htvs, hfin⟩ := h
  subst hfin
  intro lm et hrs2 days2 hlm het hhrs2 hdays2
  rw [hl1] at hlm
  injection hlm with hlm
  subst hlm
  rw [hl1] at hl2
  injection hl2 with hl2
  subst hl2
  rw [het1] at het
  injection het with het
  subst het
  rw [het1] at het2
  injection het2 with het2
  subst het2
  rw [hhrs] at hhrs2
  injection hhrs2 with hhrs2
  subst hhrs2
  rw [hdays] at hdays2
  injection hdays2 with hdays2
  subst hdays2
  rfl

theorem vmwareExtract_ok (props : JVal) (t t' : RecoveryTarget)
    (h : vmwareExtract props t = .ok t') :
    (∀ lm et hrs2 days2,
      jgetD props "liveMountOptions" (.obj []) = .ok lm →
      jgetD lm "expirationTime" (.obj []) = .ok et →
      jgetD et "minutesRetainUntil" (.str "") = .ok hrs2 →
      jgetD et "daysRetainUntil" (.str "") = .ok days2 →
      t'._expiration_time =
        (if hrs2.truthy then .str (pyStr hrs2 ++ " hours")
         else if days2.truthy then .str (pyStr days2 ++ " days")
         else t._expiration_time)) := by
  simp only [vmwareExtract, except_bind_ok, Except.ok.injEq] at h
  obtain ⟨d1, hd1, dh, hdh, d2, hd2, ds, hds, d3, hd3, rp, hrp, d4, hd4, vmF, hvmF,
    n1, hn1, nc1, hnc1, dns, hdns, vsp, hvsp, l1, hl1, et1, het1, hrs, hhrs,
    l2, hl2, et2, het2, days, hdays, ma, hma, fma, hfma, vl, hvl, isoNet, hisoNet,
    mc, hmc, mv, hmv, isoL, hisoL, isoEls, hisoEls, paths, hpaths, acg, hacg,
    sg, hsg, hfin⟩ := h
  subst hfin
  intro lm et hrs2 days2 hlm het hhrs2 hdays2
  rw [hl1] at hlm
  injection hlm with hlm
  subst hlm
  rw [hl1] at hl2
  injection hl2 with hl2
  subst hl2
  rw [het1] at het
  injection het with het
  subst het
  rw [het1] at het2
  injection het2 with het2
  subst het2
  rw [hhrs] at hhrs2
  injection hhrs2 with hhrs2
  subst hhrs2
  rw [hdays] at hdays2
  injection hdays2 with hdays2
  subst hdays2
  rfl

theorem extractCommon_ok (props : JVal) (t t1 : RecoveryTarget) (pt : Int)
    (h : extractCommon props t = .ok (t1, pt)) :
    nonAWSVariantFields t1 = nonAWSVariantFields t ∧
    allVariantFields t1 = allVariantFields t ∧
    t1._server_group = t._server_group ∧
    t1._encryption_key_id = t._encryption_key_id ∧
    t1._policy_type = .num pt ∧
    t1._expiration_time = t._expiration_time ∧
    (∀ ent pol, jidxS props "entity" = .ok ent →
      jgetD ent "policyType" (.str "") = .ok pol →
      pt = RecoveryTarget._set_policy_type pol) := by
  simp only [extractCommon, except_bind_ok, Except.ok.injEq, Prod.mk.injEq] at h
  obtain ⟨e1, he1, appT, happT, e2, he2, dh, hdh, dhName, hdhName, v1, hv1,
    sfx, hsfx, v2, hv2, pfx, hpfx, a1, ha1, an, han, a2, ha2, anT, hanT,
    s1, hs1, us, hus, s2, hs2, ug, hug, entI, hentI, pol0, hpol0, hfin1, hfin2⟩ := h
  subst hfin2
  subst hfin1
  refine ⟨rfl, rfl, rfl, rfl, rfl, rfl, ?_⟩
  intro ent pol hent hpol
  rw [hentI] at hent
  injection hent with hent
  subst hent
  rw [hpol0] at hpol
  injection hpol with hpol
  subst hpol
  rfl

theorem extractFields_ok (props : JVal) (t t' : RecoveryTarget)
    (h : extractFields props t = .ok t') :
    ∃ t1 pt, extractCommon props t = .ok (t1, pt) ∧
      ((pt = 1 ∧ awsExtract props t1 = .ok t') ∨
       (pt = 2 ∧ hypervExtract props t1 = .ok t') ∨
       (pt = 7 ∧ azureExtract props t1 = .ok t') ∨
       (pt = 13 ∧ vmwareExtract props t1 = .ok t') ∨
       (pt ≠ 1 ∧ pt ≠ 2 ∧ pt ≠ 7 ∧ pt ≠ 13 ∧ t' = t1)) := by
  simp only [extractFields, except_bind_ok] at h
  obtain ⟨r, hr, hrest⟩ := h
  refine ⟨r.1, r.2, by simpa using hr, ?_⟩
  by_cases h1 : r.2 = 1
  · exact Or.inl ⟨h1, by simpa [h1] using hrest⟩
  · by_cases h2 : r.2 = 2
    · exact Or.inr (Or.inl ⟨h2, by simpa [h2, h1] using hrest⟩)
    · by_cases h7 : r.2 = 7
      · exact Or.inr (Or.inr (Or.inl ⟨h7, by simpa [h7, h1, h2] using hrest⟩))
      · by_cases h13 : r.2 = 13
        · exact Or.inr (Or.inr (Or.inr (Or.inl ⟨h13,
            by simpa [h13, h1, h2, h7] using hrest⟩)))
        · refine Or.inr (Or.inr (Or.inr (Or.inr ⟨h1, h2, h7, h13, ?_⟩)))
          rw [if_neg h1, if_neg h2, if_neg h7, if_neg h13] at hrest
          injection hrest with hrest
          exact hrest.symm

theorem loadDetail_ok_extract (upd : String → String) (r : Response)
    (t t' : RecoveryTarget)
    (h : RecoveryTarget._get_recovery_target_properties upd (true, r) t = .ok t') :
    extractFields r.jsonBody t = .ok t' := by
  unfold RecoveryTarget._get_recovery_target_properties at h
  simp only [if_true] at h
  split at h
  · split at h
    · exact absurd h (by simp)
    · exact (liftE_eq_ok _ _).mp h
    · exact absurd h (by simp)
  · exact absurd h (by simp)

/-- C2: after a successful detail load, the populated policy-specific field
group is selected solely by entity.policyType: for "AMAZON" the target has
policy_type 1 and every field belonging only to the Hyper-V, Azure or VMware
groups (including the VMware-only _server_group attribute) still holds its
__init__ default; for an unrecognised discriminant the policy_type is -1 and
every variant-specific field of all four groups holds its default (and the
branch-only attributes _server_group/_encryption_key_id do not exist). -/
theorem c2_one_field_group (upd : String → String) (r : Response)
    (nm tid : String) (ent pol : JVal)
    (hent : jidxS r.jsonBody "entity" = .ok ent)
    (hpol : jgetD ent "policyType" (.str "") = .ok pol)
    (hok : exceptIsOk (RecoveryTarget._get_recovery_target_properties upd (true, r)
      (rtInitState nm tid)) = true) :
    (pol = .str "AMAZON" →
      Except.map (fun t => (RecoveryTarget.policy_type t, nonAWSVariantFields t,
        t._server_group))
        (RecoveryTarget._get_recovery_target_properties upd (true, r)
          (rtInitState nm tid)) =
        .ok (.num 1, nonAWSVariantDefaults, none)) ∧
    ((pol ≠ .str "AMAZON" ∧ pol ≠ .str "MICROSOFT" ∧
      pol ≠ .str "AZURE_RESOURCE_MANAGER" ∧ pol ≠ .str "VMW_BACKUP_LABTEMPLATE" ∧
      pol ≠ .str "VMW_LIVEMOUNT") →
      Except.map (fun t => (RecoveryTarget.policy_type t, allVariantFields t,
        t._server_group, t._encryption_key_id))
        (RecoveryTarget._get_recovery_target_properties upd (true, r)
          (rtInitState nm tid)) =
        .ok (.num (-1), allVariantDefaults, none, none)) := by
  obtain ⟨t', ht'⟩ := (exceptIsOk_eq_true_iff _).mp hok
  have hext := loadDetail_ok_extract upd r _ t' ht'
  obtain ⟨t1, pt, hcom, hbr⟩ := extractFields_ok _ _ _ hext
  obtain ⟨hna, hall, hsg, hekid, hptf, hexp, hlink⟩ := extractCommon_ok _ _ _ _ hcom
  have hpt : pt = RecoveryTarget._set_policy_type pol := hlink ent pol hent hpol
  constructor
  · intro hA
    subst hA
    have hpt1 : pt = 1 := by rw [hpt]; rfl
    rcases hbr with ⟨-, haws⟩ | ⟨h2, -⟩ | ⟨h7, -⟩ | ⟨h13, -⟩ | ⟨hn1, -, -, -, -⟩
    · obtain ⟨hna2, hsg2, hpt2, -⟩ := awsExtract_ok _ _ _ haws
      have e1 : RecoveryTarget.policy_type t' = .num 1 := by
        rw [RecoveryTarget.policy_type, hpt2, hptf, hpt1]
      have e2 : nonAWSVariantFields t' = nonAWSVariantDefaults := by
        rw [hna2, hna]
        rfl
      have e3 : t'._server_group = none := by
        rw [hsg2, hsg]
        rfl
      simp only [ht', Except.map, e1, e2, e3]
    · rw [hpt1] at h2
      norm_num at h2
    · rw [hpt1] at h7
      norm_num at h7
    · rw [hpt1] at h13
      norm_num at h13
    · exact absurd hpt1 hn1
  · intro hB
    obtain ⟨hb1, hb2, hb3, hb4, hb5⟩ := hB
    have hptm : pt = -1 := by
      rw [hpt]
      simp [RecoveryTarget._set_policy_type, jeqStr_eq_true_iff, hb1, hb2, hb3, hb4, hb5]
    rcases hbr with ⟨h1, -⟩ | ⟨h2, -⟩ | ⟨h7, -⟩ | ⟨h13, -⟩ | ⟨-, -, -, -, hEq⟩
    · rw [hptm] at h1
      norm_num at h1
    · rw [hptm] at h2
      norm_num at h2
    · rw [hptm] at h7
      norm_num at h7
    · rw [hptm] at h13
      norm_num at h13
    · subst hEq
      have e1 : RecoveryTarget.policy_type t' = .num (-1) := by
        rw [RecoveryTarget.policy_type, hptf, hptm]
      have e2 : allVariantFields t' = allVariantDefaults := by
        rw [hall]
        rfl
      have e3 : t'._server_group = none := by
        rw [hsg]
        rfl
      have e4 : t'._encryption_key_id = none := by
        rw [hekid]
        rfl
      simp only [ht', Except.map, e1, e2, e3, e4]

/-- Witness for C2 at two concrete detail documents: policyType "AMAZON"
(AWS populated, every other group at defaults) and an unrecognised
policyType "LACERTA" (nothing populated). -/
theorem c2_one_field_group_witness :
    Except.map (fun t => (RecoveryTarget.policy_type t, nonAWSVariantFields t,
      t._server_group))
      (RecoveryTarget._get_recovery_target_properties (fun s => s)
        (true, ⟨.obj [("entity", .obj [("policyType", .str "AMAZON")])], ""⟩)
        (rtInitState "t" "1")) = .ok (.num 1, nonAWSVariantDefaults, none) ∧
    Except.map (fun t => (RecoveryTarget.policy_type t, allVariantFields t,
      t._server_group, t._encryption_key_id))
      (RecoveryTarget._get_recovery_target_properties (fun s => s)
        (true, ⟨.obj [("entity", .obj [("policyType", .str "LACERTA")])], ""⟩)
        (rtInitState "t" "1")) = .ok (.num (-1), allVariantDefaults, none, none) :=
  ⟨(c2_one_field_group (fun s => s) ⟨.obj [("entity",
      .obj [("policyType", .str "AMAZON")])], ""⟩ "t" "1" _ _ rfl rfl rfl).1 rfl,
   (c2_one_field_group (fun s => s) ⟨.obj [("entity",
      .obj [("policyType", .str "LACERTA")])], ""⟩ "t" "1"
      (.obj [("policyType", .str "LACERTA")]) (.str "LACERTA") rfl rfl rfl).2
    ⟨by simp, by simp, by simp, by simp, by simp⟩⟩

/-- C4: for every AWS, Azure or VMware detail document that loads
successfully, the expiration_time field is rendered "v hours" when
liveMountOptions.expirationTime.minutesRetainUntil is present and truthy
with value v, else "v days" when daysRetainUntil is present and truthy, else
left unset (null); hours takes precedence and at most one rendering
occurs. -/
theorem c4_expiration_rendering (upd : String → String) (r : Response)
    (nm tid : String) (ent pol lm et hrs days : JVal)
    (hent : jidxS r.jsonBody "entity" = .ok ent)
    (hpol : jgetD ent "policyType" (.str "") = .ok pol)
    (hdisj : pol = .str "AMAZON" ∨ pol = .str "AZURE_RESOURCE_MANAGER" ∨
      pol = .str "VMW_BACKUP_LABTEMPLATE" ∨ pol = .str "VMW_LIVEMOUNT")
    (hlm : jgetD r.jsonBody "liveMountOptions" (.obj []) = .ok lm)
    (het : jgetD lm "expirationTime" (.obj []) = .ok et)
    (hhrs : jgetD et "minutesRetainUntil" (.str "") = .ok hrs)
    (hdays : jgetD et "daysRetainUntil" (.str "") = .ok days)
    (hok : exceptIsOk (RecoveryTarget._get_recovery_target_properties upd (true, r)
      (rtInitState nm tid)) = true) :
    Except.map RecoveryTarget.expiration_time
      (RecoveryTarget._get_recovery_target_properties upd (true, r)
        (rtInitState nm tid)) =
      .ok (if hrs.truthy then .str (pyStr hrs ++ " hours")
           else if days.truthy then .str (pyStr days ++ " days")
           else .null) := by
  obtain ⟨t', ht'⟩ := (exceptIsOk_eq_true_iff _).mp hok
  have hext := loadDetail_ok_extract upd r _ t' ht'
  obtain ⟨t1, pt, hcom, hbr⟩ := extractFields_ok _ _ _ hext
  obtain ⟨-, -, -, -, -, hexpC, hlink⟩ := extractCommon_ok _ _ _ _ hcom
  have hpt : pt = RecoveryTarget._set_policy_type pol := hlink ent pol hent hpol
  rcases hdisj with hP | hP | hP | hP
  · subst hP
    have hpt1 : pt = 1 := by rw [hpt]; rfl
    rcases hbr with ⟨-, hbrx⟩ | ⟨hx, -⟩ | ⟨hx, -⟩ | ⟨hx, -⟩ | ⟨hx, -, -, -, -⟩
    · obtain ⟨-, -, -, hexpA⟩ := awsExtract_ok _ _ _ hbrx
      have hE := hexpA lm et hrs days hlm het hhrs hdays
      simp only [ht', Except.map, RecoveryTarget.expiration_time]
      rw [hE, hexpC]
      rfl
    · rw [hpt1] at hx
      norm_num at hx
    · rw [hpt1] at hx
      norm_num at hx
    · rw [hpt1] at hx
      norm_num at hx
    · exact absurd hpt1 hx
  · subst hP
    have hpt7 : pt = 7 := by rw [hpt]; rfl
    rcases hbr with ⟨hx, -⟩ | ⟨hx, -⟩ | ⟨-, hbrx⟩ | ⟨hx, -⟩ | ⟨-, -, hx, -, -⟩
    · rw [hpt7] at hx
      norm_num at hx
    · rw [hpt7] at hx
      norm_num at hx
    · have hexpA := azureExtract_ok _ _ _ hbrx
      have hE := hexpA lm et hrs days hlm het hhrs hdays
      simp only [ht', Except.map, RecoveryTarget.expiration_time]
      rw [hE, hexpC]
      rfl
    · rw [hpt7] at hx
      norm_num at hx
    · exact absurd hpt7 hx
  · subst hP
    have hpt13 : pt = 13 := by rw [hpt]; rfl
    rcases hbr with ⟨hx, -⟩ | ⟨hx, -⟩ | ⟨hx, -⟩ | ⟨-, hbrx⟩ | ⟨-, -, -, hx, -⟩
    · rw [hpt13] at hx
      norm_num at hx
    · rw [hpt13] at hx
      norm_num at hx
    · rw [hpt13] at hx
      norm_num at hx
    · have hexpA := vmwareExtract_ok _ _ _ hbrx
      have hE := hexpA lm et hrs days hlm het hhrs hdays
      simp only [ht', Except.map, RecoveryTarget.expiration_time]
      rw [hE, hexpC]
      rfl
    · exact absurd hpt13 hx
  · subst hP
    have hpt13 : pt = 13 := by rw [hpt]; rfl
    rcases hbr with ⟨hx, -⟩ | ⟨hx, -⟩ | ⟨hx, -⟩ | ⟨-, hbrx⟩ | ⟨-, -, -, hx, -⟩
    · rw [hpt13] at hx
      norm_num at hx
    · rw [hpt13] at hx
      norm_num at hx
    · rw [hpt13] at hx
      norm_num at hx
    · have hexpA := vmwareExtract_ok _ _ _ hbrx
      have hE := hexpA lm et hrs days hlm het hhrs hdays
      simp only [ht', Except.map, RecoveryTarget.expiration_time]
      rw [hE, hexpC]
      rfl
    · exact absurd hpt13 hx

/-- Witness for C4: the spec's scenario - minutesRetainUntil 4 (and a
competing daysRetainUntil 3) renders "4 hours". -/
theorem c4_expiration_rendering_witness :
    Except.map RecoveryTarget.expiration_time
      (RecoveryTarget._get_recovery_target_properties (fun s => s)
        (true, ⟨.obj [("entity", .obj [("policyType", .str "AMAZON")]),
          ("liveMountOptions", .obj [("expirationTime", .obj [
            ("minutesRetainUntil", .num 4), ("daysRetainUntil", .num 3)])])], ""⟩)
        (rtInitState "t" "1")) = .ok (.str "4 hours") := by
  have h := c4_expiration_rendering (fun s => s)
    ⟨.obj [("entity", .obj [("policyType", .str "AMAZON")]),
      ("liveMountOptions", .obj [("expirationTime", .obj [
        ("minutesRetainUntil", .num 4), ("daysRetainUntil", .num 3)])])], ""⟩
    "t" "1" (.obj [("policyType", .str "AMAZON")]) (.str "AMAZON")
    (.obj [("expirationTime", .obj [("minutesRetainUntil", .num 4),
      ("daysRetainUntil", .num 3)])])
    (.obj [("minutesRetainUntil", .num 4), ("daysRetainUntil", .num 3)])
    (.num 4) (.num 3)
    rfl rfl (Or.inl rfl) rfl rfl rfl rfl rfl
  rw [h]
  simp only [JVal.truthy, pyStr, pyRepr]
  norm_num
  decide

theorem dlookup_none_iff_any_false (d : StrDict) (k : String) :
    dlookup d k = none ↔ (d.any fun p => decide (p.1 = k)) = false := by
  rw [dlookup_eq_none_iff, ← Bool.not_eq_true]
  simp [List.any_eq_true, List.mem_map]

theorem has_eq_any (s : RecoveryTargetsState) (n : String) :
    RecoveryTargets.has_recovery_target s (.str n) =
      .ok (s._recovery_targets.any fun p => decide (p.1 = pyLowerStr n)) := by
  unfold RecoveryTargets.has_recovery_target
  cases hd : s._recovery_targets with
  | nil => simp
  | cons a l => simp

/-- C5 as stated is false at one reachable corner: when the cached mapping
stores the empty-string identifier (which `str(record['id'])` produces for a
record whose id is the empty string), RecoveryTargets.get hands it to
RecoveryTarget.__init__, whose truthiness test discards it and reloads the
catalog with a fresh list request; here that list request fails, so get
propagates its ResponseError instead of returning a Target built from the
stored identifier. -/
theorem c5_get_counterexample :
    RecoveryTargets.get
      ⟨(false, ⟨.null, "boom"⟩),
        (fun _ => (true, ⟨.obj [("entity", .obj [])], ""⟩)), fun s => s⟩
      ⟨[("t", "")]⟩ (.str "t") = .error (.sdkResponseFailure "boom") ∧
    exceptIsOk (RecoveryTargets.get
      ⟨(false, ⟨.null, "boom"⟩),
        (fun _ => (true, ⟨.obj [("entity", .obj [])], ""⟩)), fun s => s⟩
      ⟨[("t", "")]⟩ (.str "t")) = false := ⟨rfl, rfl⟩

/-- C5 (amended): RecoveryTargets.get raises InvalidInputError on a
non-string; with the name lower-cased, raises NotFoundError naming the
target when the lower-cased name is not a key of the cached mapping; and
when it is a key whose stored identifier is a non-empty string, returns the
RecoveryTarget built by fetching the detail endpoint with that stored
identifier - no list request is involved (the result depends only on
c.detailResponse). A falsy (empty) stored identifier instead re-resolves
through a fresh catalog load (see the counterexample). -/
theorem c5_get_amended (c : Commcell) (s : RecoveryTargetsState) (v : JVal)
    (n i : String) :
    ((∀ m, v ≠ .str m) → RecoveryTargets.get c s v = .error .sdkTargetNotString) ∧
    (v = .str n → dlookup s._recovery_targets (pyLowerStr n) = none →
      RecoveryTargets.get c s v =
        .error (.sdkTargetNotFound ("No target exists with name: " ++ pyLowerStr n))) ∧
    (v = .str n → dlookup s._recovery_targets (pyLowerStr n) = some i → i ≠ "" →
      RecoveryTargets.get c s v =
        RecoveryTarget._get_recovery_target_properties c.upd (c.detailResponse i)
          (rtInitState (pyLowerStr n) i)) := by
  refine ⟨?_, ?_, ?_⟩
  · intro hm
    cases v with
    | str m => exact absurd rfl (hm m)
    | null => rfl
    | bool b => rfl
    | num k => rfl
    | arr xs => rfl
    | obj fs => rfl
  · rintro rfl hnone
    have hred : RecoveryTargets.get c s (.str n) =
        (match RecoveryTargets.has_recovery_target s (.str (pyLowerStr n)) with
        | Except.error e => Except.error e
        | Except.ok true =>
          match dlookup (RecoveryTargets.all_targets s) (pyLowerStr n) with
          | some j => RecoveryTarget.ctor c (pyLowerStr n) (some j)
          | none => Except.error (PyErr.prim (PrimErr.keyError (pyLowerStr n)))
        | Except.ok false =>
          Except.error (PyErr.sdkTargetNotFound
            ("No target exists with name: " ++ pyLowerStr n))) := rfl
    rw [hred, has_eq_any, pyLowerStr_idem, (dlookup_none_iff_any_false _ _).mp hnone]
  · rintro rfl hsome hne
    have hred : RecoveryTargets.get c s (.str n) =
        (match RecoveryTargets.has_recovery_target s (.str (pyLowerStr n)) with
        | Except.error e => Except.error e
        | Except.ok true =>
          match dlookup (RecoveryTargets.all_targets s) (pyLowerStr n) with
          | some j => RecoveryTarget.ctor c (pyLowerStr n) (some j)
          | none => Except.error (PyErr.prim (PrimErr.keyError (pyLowerStr n)))
        | Except.ok false =>
          Except.error (PyErr.sdkTargetNotFound
            ("No target exists with name: " ++ pyLowerStr n))) := rfl
    rw [hred, has_eq_any, pyLowerStr_idem]
    have hany : (s._recovery_targets.any fun p => decide (p.1 = pyLowerStr n)) = true := by
      cases hA : s._recovery_targets.any fun p => decide (p.1 = pyLowerStr n) with
      | true => rfl
      | false =>
        rw [(dlookup_none_iff_any_false _ _).mpr hA] at hsome
        cases hsome
    rw [hany]
    simp only [RecoveryTargets.all_targets]
    rw [hsome]
    show (if i ≠ "" then RecoveryTarget.ctorWithId c (pyLowerStr (pyLowerStr n)) i
      else do
        let tid ← RecoveryTarget._get_recovery_target_id c (pyLowerStr (pyLowerStr n))
        RecoveryTarget.ctorWithId c (pyLowerStr (pyLowerStr n)) tid) = _
    rw [pyLowerStr_idem, if_pos hne]
    rfl

/-- Witness for the amended C5: a present name with a non-empty stored id
resolves to the detail fetch parameterised by that id, after lower-casing
the requested name. -/
theorem c5_get_amended_witness :
    RecoveryTargets.get
      ⟨(false, ⟨.null, "unused"⟩),
        (fun _ => (true, ⟨.obj [("entity", .obj [])], ""⟩)), fun s => s⟩
      ⟨[("tgt1", "5")]⟩ (.str "TGT1") =
      RecoveryTarget._get_recovery_target_properties (fun s => s)
        (true, ⟨.obj [("entity", .obj [])], ""⟩)
        (rtInitState (pyLowerStr "TGT1") "5") :=
  (c5_get_amended
    ⟨(false, ⟨.null, "unused"⟩),
      (fun _ => (true, ⟨.obj [("entity", .obj [])], ""⟩)), fun s => s⟩
    ⟨[("tgt1", "5")]⟩ (.str "TGT1") "TGT1" "5").2.2 rfl (by decide) (by decide)

/-- C6 as stated is false: when the name is absent from the freshly loaded
catalog, RecoveryTarget.__init__ fails with the raw KeyError of the
`all_targets[name]` dict indexing, not with the NotFoundError
(SDKException('RecoveryTarget', '102')) that RecoveryTargets.get raises. -/
theorem c6_ctor_counterexample :
    RecoveryTarget.ctor
      ⟨(true, ⟨.obj [("recoveryTargets", .arr [])], ""⟩),
        (fun _ => (true, ⟨.obj [("entity", .obj [])], ""⟩)), fun s => s⟩
      "missing" none = .error (.prim (.keyError "missing")) ∧
    isNotFound (RecoveryTarget.ctor
      ⟨(true, ⟨.obj [("recoveryTargets", .arr [])], ""⟩),
        (fun _ => (true, ⟨.obj [("entity", .obj [])], ""⟩)), fun s => s⟩
      "missing" none) = false := ⟨rfl, rfl⟩

/-- C6 (amended): constructing a RecoveryTarget with no identifier loads a
transient catalog and looks the (lower-cased) name up there: catalog
list-loading failures (the ResponseError modes) propagate unchanged; an
absent name fails with the dict KeyError of the raw indexing (not
NotFoundError); a present name proceeds to the detail fetch with the
freshly resolved identifier. -/
theorem c6_ctor_amended (c : Commcell) (name : String) :
    (∀ e, RecoveryTargets._get_recovery_targets c.upd c.listResponse = .error e →
      RecoveryTarget.ctor c name none = .error e) ∧
    (∀ d, RecoveryTargets._get_recovery_targets c.upd c.listResponse = .ok d →
      dlookup d (pyLowerStr name) = none →
      RecoveryTarget.ctor c name none =
        .error (.prim (.keyError (pyLowerStr name)))) ∧
    (∀ d i, RecoveryTargets._get_recovery_targets c.upd c.listResponse = .ok d →
      dlookup d (pyLowerStr name) = some i →
      RecoveryTarget.ctor c name none =
        RecoveryTarget._get_recovery_target_properties c.upd (c.detailResponse i)
          (rtInitState (pyLowerStr name) i)) := by
  refine ⟨?_, ?_, ?_⟩
  · intro e he
    unfold RecoveryTarget.ctor RecoveryTarget._get_recovery_target_id
      RecoveryTargets.ctor
    rw [he]
    rfl
  · intro d hd hnone
    unfold RecoveryTarget.ctor RecoveryTarget._get_recovery_target_id
      RecoveryTargets.ctor
    rw [hd]
    simp only [Bind.bind, Except.bind, RecoveryTargets.all_targets]
    rw [hnone]
  · intro d i hd hsome
    unfold RecoveryTarget.ctor RecoveryTarget._get_recovery_target_id
      RecoveryTargets.ctor
    rw [hd]
    simp only [Bind.bind, Except.bind, RecoveryTargets.all_targets]
    rw [hsome]
    rfl

/-- Witness for the amended C6: a failing list load propagates its
ResponseError out of the constructor. -/
theorem c6_ctor_amended_witness :
    RecoveryTarget.ctor
      ⟨(false, ⟨.null, "down"⟩),
        (fun _ => (true, ⟨.obj [("entity", .obj [])], ""⟩)), fun s => s⟩
      "x" none = .error (.sdkResponseFailure "down") :=
  (c6_ctor_amended
    ⟨(false, ⟨.null, "down"⟩),
      (fun _ => (true, ⟨.obj [("entity", .obj [])], ""⟩)), fun s => s⟩
    "x").1 (.sdkResponseFailure "down") rfl
